import Mathlib

/-!
Verification development for the S3-netCDF library core
(`_s3netCDF4` module and the `s3FileObject` backend).

The Python source is shallowly embedded: byte strings become `List Nat`,
Python dictionaries become association lists, fallible code returns
`Except`, and stateful methods pass their state explicitly.  Definitions
follow the branch structure of the corresponding source functions; the
parts of the repository that are not shipped with the sources (the CFA
slice decomposition, the `FileManager`) are modelled from the
specification and marked as such in their doc comments.
-/

/-! ### A tiny model of Python run-time values

`_interpret_netCDF_filetype` compares values of distinct Python types
(`data[0]` is an `int` once the stream is a Python-3 `bytes`; `b'\016'`
is a `bytes`; `'2'` is a `str`).  In Python 3, `==` between values of
those distinct types is `False`.  `PyVal.eq` reproduces exactly that
semantics. -/

inductive PyVal : Type where
  | int : Nat → PyVal
  | bytes : List Nat → PyVal
  | str : String → PyVal
deriving DecidableEq, Repr

def PyVal.eq : PyVal → PyVal → Bool
  | .int a, .int b => a == b
  | .bytes a, .bytes b => a == b
  | .str a, .str b => a == b
  | _, _ => false

/-- Embedding of `s3Dataset._interpret_netCDF_filetype` (part_000 lines
1112-1155).  `data` holds the byte values of the first six bytes read
from the master file; Python-3 `bytes` slicing (`data[1:4]`, `data[0:3]`)
yields `bytes` values and plain indexing (`data[0]` ... `data[3]`) yields
`int` values, so the comparisons are embedded through `PyVal.eq` with the
types each side has at run time. -/
def interpret_netCDF_filetype (data : List Nat) : String × PyVal :=
  -- file_version = 0; file_type = 'NOT_NETCDF'
  -- if data[1:4] == b'HDF'
  if PyVal.eq (.bytes ((data.drop 1).take 3)) (.bytes [72, 68, 70]) then
    ("NETCDF4", .int 5)
  -- elif data[0] == b'\016' and data[1] == b'\003' and
  --      data[2] == b'\023' and data[3] == b'\001'
  else if PyVal.eq (.int (data.getD 0 0)) (.bytes [14]) &&
          PyVal.eq (.int (data.getD 1 0)) (.bytes [3]) &&
          PyVal.eq (.int (data.getD 2 0)) (.bytes [19]) &&
          PyVal.eq (.int (data.getD 3 0)) (.bytes [1]) then
    ("NETCDF4", .int 4)
  -- elif data[0:3] == b'CDF'
  else if PyVal.eq (.bytes (data.take 3)) (.bytes [67, 68, 70]) then
    -- file_version = data[3]
    let fv : PyVal := .int (data.getD 3 0)
    if PyVal.eq fv (.int 1) then ("NETCDF3_CLASSIC", fv)
    else if PyVal.eq fv (.str "2") then ("NETCDF3_64BIT_OFFSET", fv)
    else if PyVal.eq fv (.str "5") then ("NETCDF3_64BIT_DATA", fv)
    -- else: file_version = 1  (file_type keeps its initial 'NOT_NETCDF')
    else ("NOT_NETCDF", .int 1)
  else
    ("NOT_NETCDF", .int 0)

/-! ### The dataset constructor -/

inductive S3Err : Type where
  /-- `APIException("CFA 0.5 is not compatible with NETCDF3 file formats.")` -/
  | cfaIncompatible
  /-- `IOError("File: ... is not a netCDF file")` -/
  | notNetCDF
  /-- `APIException("Mode ... not supported.")` -/
  | modeNotSupported
  /-- `IOException("Object does not exist: ...")` raised by `s3FileObject.connect` -/
  | objectDoesNotExist
  /-- `APIException("Appending to files is not supported ...")` -/
  | appendNotSupported
deriving DecidableEq, Repr

/-- The observable outcome of a successful `s3Dataset.__init__`: the
netCDF file type handed to the underlying `netCDF4.Dataset` constructor
and whether a `CFADataset` structure (`self._cfa_dataset`) exists. -/
structure DatasetState : Type where
  file_type : String
  has_cfa : Bool
deriving DecidableEq, Repr

/-- Embedding of `s3Dataset.__init__` (part_000 lines 830-955).

* The CFA-0.5 compatibility guard (lines 839-843) runs first, before any
  file state is created.
* The `FileManager` (imported from `S3netCDF4.Managers._FileManager`,
  not among the sources) is modelled from the spec: `request_file` for
  the master URI hands back a byte-stream record, modelled as always
  succeeding here since none of the settled claims depends on its
  failure modes.
* `magic` is the result of `file_object.read_from(0, 6)` on the master,
  used only in read mode; `is_cfa_file` is the verdict of the
  `CFA_netCDFParser.is_file` call (parser code not among the sources). -/
def s3Dataset_init (mode format cfa_version : String) (magic : List Nat)
    (is_cfa_file : Bool) : Except S3Err DatasetState :=
  if cfa_version = "0.5" ∧ (format = "CFA3" ∨ format = "NETCDF3_CLASSIC") then
    .error .cfaIncompatible
  else
    -- FileManager creation, _creation_params recording and the
    -- request_file call on the master URI sit here; none of them raises
    -- in this model.
    if mode = "w" then
      if format = "CFA4" ∨ format = "DEFAULT" then
        .ok ⟨"NETCDF4", true⟩
      else if format = "CFA3" then
        .ok ⟨"NETCDF3_CLASSIC", true⟩
      else
        .ok ⟨format, false⟩
    else if mode = "r" then
      let ft := (interpret_netCDF_filetype magic).1
      if ft = "NOT_NETCDF" then .error .notNetCDF
      else .ok ⟨ft, is_cfa_file⟩
    else
      .error .modeNotSupported

/-! ### The byte-stream backend: `s3FileObject` -/

/-- Embedding of `s3FileObject.connect` (_s3FileObject.pyx lines
177-231).  The connection-pool and botocore-session plumbing is external
and modelled as succeeding; `path_has_wildcard` stands for
`'*' in self._path or '?' in self._path` and `object_exists` for the
`list_objects_v2` existence probe. -/
def s3FileObject_connect (mode : String) (path_has_wildcard : Bool)
    (object_exists : Bool) : Except S3Err Bool :=
  if 'r' ∈ mode.data ∧ ¬path_has_wildcard ∧ ¬object_exists then
    .error .objectDoesNotExist
  else
    -- 'w' in mode: self._current_part = 1 (pure state, no failure)
    if 'a' ∈ mode.data ∨ '+' ∈ mode.data then
      .error .appendNotSupported
    else
      .ok true

inductive IOErr : Type where
  /-- `IOException("Cannot seek within a file that is being written to.")` -/
  | seekInWrite
  /-- `IOException("Seek ... is outside file size bounds 0->... for file ...")` -/
  | seekOutOfBounds
deriving DecidableEq, Repr

/-- The fields of an `s3FileObject` that `seek` touches: the mode
string, the object's content length (what `head_object` reports), the
stream position and the configured part size. -/
structure FileState : Type where
  mode : String
  size : Nat
  seek_pos : Int
  part_size : Nat
deriving DecidableEq, Repr

/-- Embedding of `s3FileObject._getsize` (_s3FileObject.pyx lines
136-155): the part size when writing, the object's content length
otherwise. -/
def s3FileObject_getsize (st : FileState) : Nat :=
  if 'w' ∈ st.mode.data then st.part_size else st.size

/-- The target position `seek` computes (lines 457-464): the offset for
`SEEK_SET`, the current position plus the offset for `SEEK_CUR`, and the
size minus the offset for `SEEK_END`. -/
def seekTarget (st : FileState) (offset : Int) : Nat → Int
  | 0 => offset
  | 1 => st.seek_pos + offset
  | 2 => (s3FileObject_getsize st : Int) - offset
  | _ => st.seek_pos

/-- Embedding of `s3FileObject.seek` (_s3FileObject.pyx lines 436-480).
`whence` is 0 (`SEEK_SET`), 1 (`SEEK_CUR`) or 2 (`SEEK_END`).  Returns
the state after the call together with the result; on an exception the
state is the unchanged input state. -/
def s3FileObject_seek (st : FileState) (offset : Int) (whence : Nat) :
    FileState × Except IOErr Int :=
  if st.mode = "w" then (st, .error .seekInWrite)
  else
    let sp := seekTarget st offset whence
    if sp ≥ (s3FileObject_getsize st : Int) then (st, .error .seekOutOfBounds)
    else if sp < 0 then (st, .error .seekOutOfBounds)
    else (⟨st.mode, st.size, sp, st.part_size⟩, .ok sp)

/-! ### Variable creation and classification -/

/-- What kind of variable `s3Variable.create` built: a CFA partitioned
field variable (`self._cfa_var` truthy, carrying the subarray sizing
arguments it was created with), a dimension variable (`self._cfa_dim`
truthy), or a plain netCDF variable on a non-CFA parent. -/
inductive VarKind : Type where
  | partitioned : List Nat → Nat → VarKind
  | dimensionVar : VarKind
  | classical : VarKind
deriving DecidableEq, Repr

def VarKind.isPartitioned : VarKind → Bool
  | .partitioned _ _ => true
  | _ => false

/-- The outcome of `s3Variable.create`: the classification plus the
dimension list handed to the underlying `nc.createVariable` call. -/
structure CreatedVar : Type where
  kind : VarKind
  nc_dimensions : List String
deriving DecidableEq, Repr

/-- Embedding of the classification performed by `s3Variable.create`
(part_000 lines 150-222), reached from `s3Dataset.createVariable`
(lines 1005-1033) and `s3Group.createVariable` (lines 680-708).

On a CFA parent (group or dataset member of an aggregated file), a
variable whose name is one of the parent's dimensions becomes a
dimension variable with that single netCDF dimension; every other
variable becomes a CFA field variable: `self._cfa_var` is assigned the
result of `CFAGroup.createVariable`, which receives `subarray_shape` and
`max_subarray_size` as sizing arguments, and the netCDF variable is
created scalar (`nc_dimensions = []`).  On a non-CFA parent the variable
is an ordinary netCDF variable with the caller's dimensions.
`CFAGroup.createVariable` itself is not among the sources; modelled from
the spec (§4.1 partitioning policy), it constructs the CFA variable
structure for every field variable it is given. -/
def s3Variable_create_kind (parentIsCFA : Bool) (parentDims : List String)
    (varname : String) (dims : List String) (subarray_shape : List Nat)
    (max_subarray_size : Nat) : CreatedVar :=
  if parentIsCFA then
    if varname ∈ parentDims then ⟨.dimensionVar, [varname]⟩
    else ⟨.partitioned subarray_shape max_subarray_size, []⟩
  else ⟨.classical, dims⟩

/-- Slice I/O dispatch in `s3Variable.__setitem__` (line 479) and
`__getitem__` (line 544): the subarray path is taken exactly when
`self._cfa_var` is truthy. -/
def dispatchesToSubarrays (cv : CreatedVar) : Bool :=
  cv.kind.isPartitioned

/-! ### Attribute overlay and backing-file fallback -/

inductive AttrErr : Type where
  /-- the backing netCDF object raises `AttributeError` for a missing attribute -/
  | attributeMissing
deriving DecidableEq, Repr

inductive DelErr : Type where
  /-- `APIException("Attribute ... not found in ...")` -/
  | attributeNotFound
  /-- the non-CFA branch calls `self._nc_var.delncattr(name, value)` with
  `value` never bound, a Python `NameError` -/
  | nameError
deriving DecidableEq, Repr

/-- The backing file's `getncattr` (the wrapped `netCDF4` object):
returns the stored attribute, or raises when it is absent. -/
def nc_getncattr {V : Type} (backing : List (String × V)) (name : String) :
    Except AttrErr V :=
  match backing.lookup name with
  | some v => .ok v
  | none => .error .attributeMissing

/-- Embedding of `s3Variable.getncattr` (part_000 lines 311-326).
`cfa_var` / `cfa_dim` are the metadata dictionaries of `self._cfa_var` /
`self._cfa_dim` when those are truthy. -/
def s3Variable_getncattr {V : Type} (cfa_var cfa_dim : Option (List (String × V)))
    (backing : List (String × V)) (name : String) : Except AttrErr V :=
  match cfa_var with
  | some md =>
    match md.lookup name with
    | some v => .ok v
    | none => nc_getncattr backing name
  | none =>
    match cfa_dim with
    | some md =>
      match md.lookup name with
      | some v => .ok v
      | none => nc_getncattr backing name
    | none => nc_getncattr backing name

/-- Embedding of `s3Group.getncattr` (part_000 lines 731-741). -/
def s3Group_getncattr {V : Type} (cfa_grp : Option (List (String × V)))
    (backing : List (String × V)) (name : String) : Except AttrErr V :=
  match cfa_grp with
  | some md =>
    match md.lookup name with
    | some v => .ok v
    | none => nc_getncattr backing name
  | none => nc_getncattr backing name

/-- Embedding of `s3Dataset.getncattr` (part_000 lines 1170-1180). -/
def s3Dataset_getncattr {V : Type} (cfa_dataset : Option (List (String × V)))
    (backing : List (String × V)) (name : String) : Except AttrErr V :=
  match cfa_dataset with
  | some md =>
    match md.lookup name with
    | some v => .ok v
    | none => nc_getncattr backing name
  | none => nc_getncattr backing name

/-- Python `dict.pop(name)` on a metadata dictionary: removes the entry
with that key, or raises `KeyError` leaving the dictionary untouched. -/
def metadata_pop {V : Type} (md : List (String × V)) (name : String) :
    Except Unit (List (String × V)) :=
  match md.lookup name with
  | some _ => .ok (md.filter (fun p => p.1 != name))
  | none => .error ()

/-- Embedding of `s3Variable.delncattr` (part_000 lines 288-309).
Returns the overlay dictionaries after the call (unchanged when an
exception propagates) together with the raised error, if any. -/
def s3Variable_delncattr {V : Type} (cfa_var cfa_dim : Option (List (String × V)))
    (name : String) :
    (Option (List (String × V)) × Option (List (String × V))) × Option DelErr :=
  match cfa_var with
  | some md =>
    match metadata_pop md name with
    | .ok md2 => ((some md2, cfa_dim), none)
    | .error _ => ((some md, cfa_dim), some .attributeNotFound)
  | none =>
    match cfa_dim with
    | some md =>
      match metadata_pop md name with
      | .ok md2 => ((none, some md2), none)
      | .error _ => ((none, some md), some .attributeNotFound)
    | none => ((none, none), some .nameError)

/-! ### The 1-D partitioned-variable model

The slice decomposition lives in `CFAVariable.__getitem__`
(`S3netCDF4.CFA._CFAClasses`), which is not among the sources, so it is
modelled from the spec (§4.1) for one dimension and unit-step slices; the
`__setitem__` / `__getitem__` drivers that consume its entries are
embedded from the source.  Arrays are `List Int` (any numeric element
type behaves identically here); a logical slice is the half-open index
range `[s, e)`. -/

/-- One record of the list `self._cfa_var[elem]` returns: the partition
and the `source` / `target` slices.  `part_index` doubles as the
subarray-file URI: the §4.2 naming rule
`{master}/{var}.{index}.{ext}` maps partition indices to URIs
injectively, so the open-file table is keyed by the index here. -/
structure IndexEntry : Type where
  part_index : Nat
  part_start : Nat
  part_stop : Nat
  src_start : Nat
  src_stop : Nat
  tgt_start : Nat
  tgt_stop : Nat
deriving DecidableEq, Repr

/-- Modelled from the spec: partition count along the axis (§4.1 step 2;
shorter terminal tile when `t` does not divide `L`). -/
def numParts (L t : Nat) : Nat := (L + t - 1) / t

/-- Modelled from the spec: the partition's location end (§3,
inclusive-exclusive), clamped at the variable length. -/
def partStop (L t i : Nat) : Nat := min ((i + 1) * t) L

/-- Modelled from the spec: `CFAVariable.__getitem__` for one dimension
(§4.1).  For the normalized slice `[s, e)` on a variable of length `L`
tiled with length-`t` partitions, returns one entry per overlapping
partition, in ascending partition order: per-partition overlap
`[max(s, loc.start), min(e, loc.end))`, `source` = overlap minus the
partition start, `target` = overlap minus the slice start. -/
def cfa_indexEntries (L t s e : Nat) : List IndexEntry :=
  (List.range (numParts L t)).filterMap (fun i =>
    let ps := i * t
    let pe := partStop L t i
    let os := max s ps
    let oe := min e pe
    if os < oe then some ⟨i, ps, pe, os - ps, oe - ps, os - s, oe - s⟩
    else none)

inductive NpErr : Type where
  /-- numpy `ValueError: could not broadcast input array from shape ... into shape ...` -/
  | broadcast
deriving DecidableEq, Repr

/-- The region `arr[a:b]` replaced by `src` (with `src` of exactly the
region's length). -/
def writeRegion {α : Type} (arr : List α) (a b : Nat) (src : List α) : List α :=
  arr.take a ++ (src ++ arr.drop b)

/-- Python/numpy slice read `arr[a:b]`. -/
def readRegion {α : Type} (arr : List α) (a b : Nat) : List α :=
  (arr.drop a).take (b - a)

/-- numpy slice assignment `arr[a:b] = src`: the source must match the
region's length (or be a single element, which broadcasts); anything
else raises a broadcast `ValueError`. -/
def npAssign (arr : List Int) (a b : Nat) (src : List Int) :
    Except NpErr (List Int) :=
  if src.length = b - a then .ok (writeRegion arr a b src)
  else
    match src with
    | [x] => .ok (writeRegion arr a b (List.replicate (b - a) x))
    | _ => .error .broadcast

/-- The open-file table restricted to the subarrays of one variable:
partition index (standing for the subarray URI, see `IndexEntry`) to the
subarray's field-variable contents. -/
abbrev SubStore : Type := List (Nat × List Int)

def storeLookup (st : SubStore) (k : Nat) : Option (List Int) :=
  List.lookup k st

def storeInsert (st : SubStore) (k : Nat) (v : List Int) : SubStore :=
  (k, v) :: List.filter (fun p => p.1 != k) st

/-- `s3Variable.__create_subarray_ncfile` (part_000 lines 376-468) for
the field variable: a fresh subarray file whose dimensions have the
partition's shape; its unwritten field variable reads as the variable's
fill value (netCDF fill semantics). -/
def subarray_create (L t : Nat) (fill : Int) (i : Nat) : List Int :=
  List.replicate (partStop L t i - i * t) fill

/-- Embedding of the partitioned branch of `s3Variable.__setitem__`
(part_000 lines 470-534) over the 1-D model.  For each index entry the
`FileManager` either returns the already-open subarray file
(`OPEN_EXISTS_*`) or reports a first open (`OPEN_NEW_*`), in which case
the subarray file is created; then line 532 executes
`nc_sa_fld_var[index.source] = data` - the WHOLE user array `data`, not
`data[index.target]`. -/
def s3Variable_setitem (L t : Nat) (fill : Int) (store : SubStore)
    (s e : Nat) (data : List Int) : Except NpErr SubStore :=
  (cfa_indexEntries L t s e).foldlM (fun st en => do
    let sub := match storeLookup st en.part_index with
      | some sub => sub
      | none => subarray_create L t fill en.part_index
    let sub2 ← npAssign sub en.src_start en.src_stop data
    pure (storeInsert st en.part_index sub2)) store

/-- Embedding of the partitioned branch of `s3Variable.__getitem__`
(part_000 lines 536-623) over the 1-D model.  The target buffer comes
from `FileManager.request_array` (not among the sources; modelled from
spec §4.3 as a zero-initialized array shaped to the bounding box of the
target slices, here `e - s`).  For each entry, a partition whose file is
absent on the backing store (`OpenFileRecord.DOES_NOT_EXIST`) fills
`target[index.target]` with the variable's `_FillValue`; otherwise
`target[index.target] = subarray[index.source]`. -/
def s3Variable_getitem (L t : Nat) (fill : Int) (store : SubStore)
    (s e : Nat) : Except NpErr (List Int) :=
  (cfa_indexEntries L t s e).foldlM (fun tgt en =>
    match storeLookup store en.part_index with
    | none => npAssign tgt en.tgt_start en.tgt_stop [fill]
    | some sub =>
      npAssign tgt en.tgt_start en.tgt_stop (readRegion sub en.src_start en.src_stop))
    (List.replicate (e - s) 0)

/-- The per-entry contents `__getitem__` is meant to leave in
`target[index.target]`: the fill value where the subarray file is
absent, the subarray slab where it exists. -/
def entryContent (fill : Int) (store : SubStore) (en : IndexEntry) : List Int :=
  match storeLookup store en.part_index with
  | none => List.replicate (en.tgt_stop - en.tgt_start) fill
  | some sub => readRegion sub en.src_start en.src_stop

/-! ### Helper lemmas -/

theorem lookup_cons_ne {V : Type} (k k' : String) (v : V) (t : List (String × V))
    (h : ¬(k = k')) : List.lookup k ((k', v) :: t) = List.lookup k t := by
  have hb : (k == k') = false := by rw [beq_eq_false_iff_ne]; exact h
  show (match k == k' with
    | true => some v
    | false => List.lookup k t) = List.lookup k t
  rw [hb]

theorem lookup_cons_self {V : Type} (k : String) (v : V) (t : List (String × V)) :
    List.lookup k ((k, v) :: t) = some v := by
  show (match k == k with
    | true => some v
    | false => List.lookup k t) = some v
  rw [beq_self_eq_true]

/-- Looking a key up after `dict.pop(name)`: the popped key is gone, every
other key is untouched. -/
theorem lookup_filter_key {V : Type} (md : List (String × V)) (name k : String) :
    (md.filter (fun p => p.1 != name)).lookup k =
      if k = name then none else md.lookup k := by
  induction md with
  | nil => by_cases h : k = name <;> simp [h]
  | cons p t ih =>
    obtain ⟨k', v⟩ := p
    by_cases h1 : k' = name
    · have hf : ((k', v) :: t).filter (fun p => p.1 != name) =
          t.filter (fun p => p.1 != name) := by
        simp [List.filter_cons, h1]
      rw [hf, ih]
      by_cases h2 : k = name
      · simp [h2]
      · rw [if_neg h2, if_neg h2, lookup_cons_ne k k' v t (fun he => h2 (he.trans h1))]
    · have hf : ((k', v) :: t).filter (fun p => p.1 != name) =
          (k', v) :: t.filter (fun p => p.1 != name) := by
        simp [List.filter_cons, h1]
      rw [hf]
      by_cases h2 : k = k'
      · subst h2
        rw [if_neg h1, lookup_cons_self, lookup_cons_self]
      · rw [lookup_cons_ne k k' v _ h2, lookup_cons_ne k k' v t h2, ih]

/-- With none of the recognized magic byte patterns at the head of the
stream, `_interpret_netCDF_filetype` reports `NOT_NETCDF`. -/
theorem interpret_unrecognized (a0 a1 a2 a3 a4 a5 : Nat)
    (h1 : ¬(a1 = 72 ∧ a2 = 68 ∧ a3 = 70))
    (h3 : ¬(a0 = 67 ∧ a1 = 68 ∧ a2 = 70 ∧ a3 = 1)) :
    (interpret_netCDF_filetype [a0, a1, a2, a3, a4, a5]).1 = "NOT_NETCDF" := by
  have e1 : PyVal.eq (.bytes ((([a0, a1, a2, a3, a4, a5] : List Nat).drop 1).take 3))
      (.bytes [72, 68, 70]) = false := by
    show (([a1, a2, a3] : List Nat) == [72, 68, 70]) = false
    rw [beq_eq_false_iff_ne]
    simpa using h1
  have e2 : (PyVal.eq (.int (([a0, a1, a2, a3, a4, a5] : List Nat).getD 0 0)) (.bytes [14]) &&
      PyVal.eq (.int (([a0, a1, a2, a3, a4, a5] : List Nat).getD 1 0)) (.bytes [3]) &&
      PyVal.eq (.int (([a0, a1, a2, a3, a4, a5] : List Nat).getD 2 0)) (.bytes [19]) &&
      PyVal.eq (.int (([a0, a1, a2, a3, a4, a5] : List Nat).getD 3 0)) (.bytes [1])) = false := rfl
  by_cases hcdf : a0 = 67 ∧ a1 = 68 ∧ a2 = 70
  · obtain ⟨p0, p1, p2⟩ := hcdf
    subst p0; subst p1; subst p2
    have ha3 : (a3 == 1) = false := by
      rw [beq_eq_false_iff_ne]
      exact fun h => h3 ⟨rfl, rfl, rfl, h⟩
    rw [show interpret_netCDF_filetype [67, 68, 70, a3, a4, a5] =
      (if (a3 == 1) = true then ("NETCDF3_CLASSIC", PyVal.int a3)
       else ("NOT_NETCDF", PyVal.int 1)) from by
        unfold interpret_netCDF_filetype
        rw [e1, e2]
        simp only [Bool.false_eq_true, if_false]
        rw [if_pos (show PyVal.eq
            (.bytes (([67, 68, 70, a3, a4, a5] : List Nat).take 3)) (.bytes [67, 68, 70]) = true
          from by
            show (([67, 68, 70] : List Nat) == [67, 68, 70]) = true
            rfl)]
        rfl]
    rw [ha3]
    simp only [Bool.false_eq_true, if_false]
  · have e3 : PyVal.eq (.bytes (([a0, a1, a2, a3, a4, a5] : List Nat).take 3))
        (.bytes [67, 68, 70]) = false := by
      show (([a0, a1, a2] : List Nat) == [67, 68, 70]) = false
      rw [beq_eq_false_iff_ne]
      simpa using hcdf
    unfold interpret_netCDF_filetype
    rw [e1, e2, e3]
    simp only [Bool.false_eq_true, if_false]

/-! ### Claim theorems -/

/-- C2: the magic-number classifier is claimed to map `\x0e\x03\x13\x01`
to the hdf-based v4 variant, `CDF\x01` to classical, `CDF\x02` to
64bit-offset and `CDF\x05` to 64bit-data.  Only the `CDF\x01` case works:
the v4 branch compares `int` with `bytes` and the `CDF\x02` / `CDF\x05`
branches compare `int` with `str`, comparisons that are always `False`
in Python 3, so those three inputs classify as `NOT_NETCDF` -
contradicting the function's own docstring. -/
theorem C2_magic_classifier_code_bug :
    interpret_netCDF_filetype [14, 3, 19, 1, 0, 0] = ("NOT_NETCDF", .int 0)
  ∧ interpret_netCDF_filetype [67, 68, 70, 2, 0, 0] = ("NOT_NETCDF", .int 1)
  ∧ interpret_netCDF_filetype [67, 68, 70, 5, 0, 0] = ("NOT_NETCDF", .int 1)
  ∧ interpret_netCDF_filetype [67, 68, 70, 1, 0, 0] = ("NETCDF3_CLASSIC", .int 1) :=
  ⟨by decide, by decide, by decide, by decide⟩

/-- C3 counterexample: the claim says convention version `0.5` combined
with the 64bit-offset classical variant fails with a FormatMismatch
error; the constructor's guard only rejects `CFA3` and
`NETCDF3_CLASSIC`, so this open succeeds. -/
theorem C3_counterexample :
    s3Dataset_init "w" "NETCDF3_64BIT_OFFSET" "0.5" [] false =
      .ok ⟨"NETCDF3_64BIT_OFFSET", false⟩ := rfl

/-- C3 (amended): an open with convention version `0.5` fails with the
CFA-incompatibility error exactly when the requested format is `CFA3` or
`NETCDF3_CLASSIC`; the 64bit-offset and 64bit-data classical variants
pass the guard (no CFA structure is created for them anyway).  The guard
is the first step of the constructor, before any file state is
created. -/
theorem C3_amended_guard (mode format : String) (magic : List Nat) (b : Bool) :
    s3Dataset_init mode format "0.5" magic b = .error .cfaIncompatible ↔
      (format = "CFA3" ∨ format = "NETCDF3_CLASSIC") := by
  constructor
  · intro h
    by_contra hne
    unfold s3Dataset_init at h
    rw [if_neg (fun hc => hne hc.2)] at h
    split at h
    · split at h <;> simp_all
    · split at h
      · revert h
        by_cases hm : (interpret_netCDF_filetype magic).1 = "NOT_NETCDF" <;> simp [hm]
      · simp_all
  · intro hf
    unfold s3Dataset_init
    rw [if_pos ⟨rfl, hf⟩]

/-- C4 counterexample: the claim says a variable on an aggregated
dataset is partitioned only if the caller supplied a `subarray_shape` or
a positive `max_subarray_size`.  A field variable created with neither
(`subarray_shape = []`, `max_subarray_size = 0`) still gets a CFA
partitioned-variable structure. -/
theorem C4_counterexample :
    ((s3Variable_create_kind true ["x"] "t" ["x"] [] 0).kind.isPartitioned = true)
  ∧ ¬(([] : List Nat) ≠ [] ∨ 0 < 0) := by
  refine ⟨rfl, ?_⟩
  simp

/-- C4 (amended): on an aggregated (CFA) dataset or group, a freshly
created variable is classified as partitioned - and its slice I/O is
dispatched through subarray files - exactly when it is a field variable,
i.e. its name is not one of the parent's dimensions; `subarray_shape`
and `max_subarray_size` only parameterize the partition sizing and play
no part in the classification.  Variables on non-aggregated parents are
classical. -/
theorem C4_amended_classification (parentIsCFA : Bool) (parentDims : List String)
    (varname : String) (dims : List String) (sshape : List Nat) (msize : Nat) :
    dispatchesToSubarrays
        (s3Variable_create_kind parentIsCFA parentDims varname dims sshape msize) = true ↔
      (parentIsCFA = true ∧ varname ∉ parentDims) := by
  unfold dispatchesToSubarrays s3Variable_create_kind
  by_cases hp : parentIsCFA <;> by_cases hd : varname ∈ parentDims <;>
    simp [hp, hd, VarKind.isPartitioned]

/-- C9: a dataset open whose mode is neither `r` nor `w` (append mode
`a` in particular) is rejected with the `APIException` for unsupported
modes, and `s3FileObject.connect` raises for every mode containing `a`
or `+`. -/
theorem C9_append_mode_rejected :
    (∀ (mode format cfa : String) (magic : List Nat) (b : Bool),
        mode ≠ "r" → mode ≠ "w" →
        ¬(cfa = "0.5" ∧ (format = "CFA3" ∨ format = "NETCDF3_CLASSIC")) →
        s3Dataset_init mode format cfa magic b = .error .modeNotSupported)
  ∧ (∀ (mode : String) (wc ex : Bool), ('a' ∈ mode.data ∨ '+' ∈ mode.data) →
        ∃ err, s3FileObject_connect mode wc ex = .error err) := by
  constructor
  · intro mode format cfa magic b hr hw hg
    unfold s3Dataset_init
    rw [if_neg hg, if_neg hw, if_neg hr]
  · intro mode wc ex h
    unfold s3FileObject_connect
    by_cases h1 : ('r' ∈ mode.data ∧ ¬wc ∧ ¬ex)
    · exact ⟨.objectDoesNotExist, by rw [if_pos h1]⟩
    · exact ⟨.appendNotSupported, by rw [if_neg h1, if_pos h]⟩

/-- C9 witness: opening a dataset in append mode `a` raises the
unsupported-mode error, and `connect` on an `a`-mode byte stream
raises. -/
theorem C9_witness :
    s3Dataset_init "a" "DEFAULT" "0.4" [] false = .error .modeNotSupported
  ∧ ∃ err, s3FileObject_connect "a" false true = .error err :=
  ⟨C9_append_mode_rejected.1 "a" "DEFAULT" "0.4" [] false (by decide) (by decide)
      (by intro hc; exact absurd hc.1 (by decide)),
   C9_append_mode_rejected.2 "a" false true (Or.inl (by decide))⟩

/-- C6: a read-mode open of a file whose first six bytes match none of
the recognized magic numbers (`?HDF`, `\x0e\x03\x13\x01`, `CDF\x01`,
`CDF\x02`, `CDF\x05`) raises the not-a-netCDF-file error, and no dataset
is produced. -/
theorem C6_unrecognized_magic_rejected (data : List Nat) (format cfa : String) (b : Bool)
    (hlen : data.length = 6)
    (hm1 : (data.drop 1).take 3 ≠ [72, 68, 70])
    (hm2 : data.take 4 ≠ [14, 3, 19, 1])
    (hm3 : data.take 4 ≠ [67, 68, 70, 1])
    (hm4 : data.take 4 ≠ [67, 68, 70, 2])
    (hm5 : data.take 4 ≠ [67, 68, 70, 5])
    (hguard : ¬(cfa = "0.5" ∧ (format = "CFA3" ∨ format = "NETCDF3_CLASSIC"))) :
    s3Dataset_init "r" format cfa data b = .error .notNetCDF := by
  obtain ⟨a0, a1, a2, a3, a4, a5, hd⟩ :
      ∃ a0 a1 a2 a3 a4 a5, data = [a0, a1, a2, a3, a4, a5] := by
    match data, hlen with
    | [a0, a1, a2, a3, a4, a5], _ => exact ⟨a0, a1, a2, a3, a4, a5, rfl⟩
  subst hd
  have h1 : ¬(a1 = 72 ∧ a2 = 68 ∧ a3 = 70) := by
    intro ⟨p, q, r⟩
    exact hm1 (by rw [show ((([a0, a1, a2, a3, a4, a5] : List Nat).drop 1).take 3) =
      [a1, a2, a3] from rfl, p, q, r])
  have h3 : ¬(a0 = 67 ∧ a1 = 68 ∧ a2 = 70 ∧ a3 = 1) := by
    intro ⟨p, q, r, u⟩
    exact hm3 (by rw [show (([a0, a1, a2, a3, a4, a5] : List Nat).take 4) =
      [a0, a1, a2, a3] from rfl, p, q, r, u])
  have hft := interpret_unrecognized a0 a1 a2 a3 a4 a5 h1 h3
  unfold s3Dataset_init
  rw [if_neg hguard, if_neg (by decide : ¬("r" = "w")), if_pos rfl]
  show (if (interpret_netCDF_filetype [a0, a1, a2, a3, a4, a5]).1 = "NOT_NETCDF"
    then Except.error S3Err.notNetCDF
    else Except.ok (DatasetState.mk (interpret_netCDF_filetype [a0, a1, a2, a3, a4, a5]).1 b)) =
      Except.error S3Err.notNetCDF
  rw [if_pos hft]

/-- C6 witness: a file starting with `PK\x03\x04hi` (a zip archive) is
rejected by the read-mode open. -/
theorem C6_witness :
    s3Dataset_init "r" "DEFAULT" "0.4" [80, 75, 3, 4, 104, 105] false =
      .error .notNetCDF :=
  C6_unrecognized_magic_rejected [80, 75, 3, 4, 104, 105] "DEFAULT" "0.4" false
    (by decide) (by decide) (by decide) (by decide) (by decide) (by decide)
    (by intro hc; exact absurd hc.1 (by decide))

/-- C10: in read mode, `seek` computes the target as the offset
(`SEEK_SET` = 0), the current position plus the offset (`SEEK_CUR` = 1),
or the size minus the offset (`SEEK_END` = 2); when the target is
negative or at/past the object size it raises an `IOException` and
leaves the position unchanged (seeking to exactly end-of-file is
rejected), and otherwise it sets and returns the target. -/
theorem C10_seek_bounds (st : FileState) (offset : Int) (whence : Nat)
    (hmode : st.mode = "r") :
    (seekTarget st offset 0 = offset
      ∧ seekTarget st offset 1 = st.seek_pos + offset
      ∧ seekTarget st offset 2 = (st.size : Int) - offset)
  ∧ (seekTarget st offset whence < 0 ∨ (st.size : Int) ≤ seekTarget st offset whence →
      s3FileObject_seek st offset whence = (st, .error .seekOutOfBounds))
  ∧ (0 ≤ seekTarget st offset whence → seekTarget st offset whence < (st.size : Int) →
      s3FileObject_seek st offset whence =
        (⟨st.mode, st.size, seekTarget st offset whence, st.part_size⟩,
         .ok (seekTarget st offset whence))) := by
  obtain ⟨m, sz, pos, ps⟩ := st
  simp only at hmode
  subst hmode
  dsimp only
  have hgs : s3FileObject_getsize ⟨"r", sz, pos, ps⟩ = sz := by
    unfold s3FileObject_getsize
    rw [if_neg (by decide : ¬('w' ∈ ("r" : String).data))]
  refine ⟨⟨rfl, rfl, by unfold seekTarget; rw [hgs]⟩, ?_, ?_⟩
  · intro hout
    unfold s3FileObject_seek
    rw [if_neg (by decide : ¬(("r" : String) = "w")), hgs]
    rcases hout with hneg | hge
    · rw [if_neg (by omega), if_pos hneg]
    · rw [if_pos hge]
  · intro h0 hlt
    unfold s3FileObject_seek
    rw [if_neg (by decide : ¬(("r" : String) = "w")), hgs,
      if_neg (by omega), if_neg (by omega)]

/-- C10 witness: on a read-mode stream over a 10-byte object at position
2, seeking to 20 fails, seeking to exactly 10 (end-of-file) fails with
the position unchanged, and a `SEEK_CUR` by 3 moves to and returns 5. -/
theorem C10_witness :
    s3FileObject_seek ⟨"r", 10, 2, 50⟩ 20 0 = (⟨"r", 10, 2, 50⟩, .error .seekOutOfBounds)
  ∧ s3FileObject_seek ⟨"r", 10, 2, 50⟩ 10 0 = (⟨"r", 10, 2, 50⟩, .error .seekOutOfBounds)
  ∧ s3FileObject_seek ⟨"r", 10, 2, 50⟩ 3 1 = (⟨"r", 10, 5, 50⟩, .ok 5) :=
  ⟨(C10_seek_bounds ⟨"r", 10, 2, 50⟩ 20 0 rfl).2.1 (Or.inr (by decide)),
   (C10_seek_bounds ⟨"r", 10, 2, 50⟩ 10 0 rfl).2.1 (Or.inr (by decide)),
   (C10_seek_bounds ⟨"r", 10, 2, 50⟩ 3 1 rfl).2.2 (by decide) (by decide)⟩

/-- C7: an attribute read on an aggregated variable, group or dataset
returns the in-memory overlay's value when the name is present there;
when the name misses the overlay, the lookup falls back to the backing
file's attribute before any error is raised (an error surfaces only when
the backing file misses it too). -/
theorem C7_attribute_fallback {V : Type} (md backing : List (String × V))
    (cfa_dim : Option (List (String × V))) (name : String) :
    (∀ v, md.lookup name = some v →
        s3Variable_getncattr (some md) cfa_dim backing name = .ok v
      ∧ s3Variable_getncattr none (some md) backing name = .ok v
      ∧ s3Group_getncattr (some md) backing name = .ok v
      ∧ s3Dataset_getncattr (some md) backing name = .ok v)
  ∧ (md.lookup name = none →
        s3Variable_getncattr (some md) cfa_dim backing name = nc_getncattr backing name
      ∧ s3Variable_getncattr none (some md) backing name = nc_getncattr backing name
      ∧ s3Group_getncattr (some md) backing name = nc_getncattr backing name
      ∧ s3Dataset_getncattr (some md) backing name = nc_getncattr backing name)
  ∧ (md.lookup name = none → ∀ w, backing.lookup name = some w →
      s3Variable_getncattr (some md) cfa_dim backing name = .ok w) := by
  refine ⟨?_, ?_, ?_⟩
  · intro v hv
    refine ⟨?_, ?_, ?_, ?_⟩ <;>
      simp [s3Variable_getncattr, s3Group_getncattr, s3Dataset_getncattr, hv]
  · intro hn
    refine ⟨?_, ?_, ?_, ?_⟩ <;>
      simp [s3Variable_getncattr, s3Group_getncattr, s3Dataset_getncattr, hn]
  · intro hn w hw
    simp [s3Variable_getncattr, nc_getncattr, hn, hw]

/-- C7 witness: a present overlay attribute shadows the backing file; an
absent one falls through to the backing file's value. -/
theorem C7_witness :
    s3Variable_getncattr (some [("units", (1 : Nat))]) none [("units", 2)] "units" = .ok 1
  ∧ s3Dataset_getncattr (some ([] : List (String × Nat))) [("t", 7)] "t" = .ok 7 :=
  ⟨((C7_attribute_fallback [("units", (1 : Nat))] [("units", 2)] none "units").1 1 rfl).1,
   (((C7_attribute_fallback ([] : List (String × Nat)) [("t", 7)] none "t").2.1 rfl).2.2.2).trans rfl⟩

/-- C8: on a partitioned (or dimension) variable, `delncattr` for a name
absent from the in-memory metadata dictionary raises the APIMisuse
error and leaves the dictionary unchanged; for a present name it removes
exactly that key. -/
theorem C8_delncattr_semantics {V : Type} (md : List (String × V)) (name : String) :
    (md.lookup name = none →
        s3Variable_delncattr (some md) none name = ((some md, none), some .attributeNotFound)
      ∧ s3Variable_delncattr none (some md) name = ((none, some md), some .attributeNotFound))
  ∧ (∀ v, md.lookup name = some v →
        s3Variable_delncattr (some md) none name =
          ((some (md.filter (fun p => p.1 != name)), none), none)
      ∧ s3Variable_delncattr none (some md) name =
          ((none, some (md.filter (fun p => p.1 != name))), none)
      ∧ ∀ k, (md.filter (fun p => p.1 != name)).lookup k =
          if k = name then none else md.lookup k) := by
  constructor
  · intro hn
    constructor <;> simp [s3Variable_delncattr, metadata_pop, hn]
  · intro v hv
    refine ⟨?_, ?_, fun k => lookup_filter_key md name k⟩ <;>
      simp [s3Variable_delncattr, metadata_pop, hv]

/-- C8 witness: deleting the missing attribute `b` raises and leaves the
dictionary untouched; deleting the present attribute `a` removes it. -/
theorem C8_witness :
    s3Variable_delncattr (some [("a", (1 : Nat))]) none "b" =
      ((some [("a", 1)], none), some .attributeNotFound)
  ∧ s3Variable_delncattr (some [("a", (1 : Nat))]) none "a" = ((some [], none), none) :=
  ⟨((C8_delncattr_semantics [("a", (1 : Nat))] "b").1 rfl).1,
   (((C8_delncattr_semantics [("a", (1 : Nat))] "a").2 1 rfl).1).trans (by decide)⟩

/-- C1: the round-trip claim - writing an array `A` over a slice of a
fresh partitioned variable and reading the slice back returns `A`,
including when the slice spans more than one partition - fails in the
code.  `__setitem__` assigns the whole user array to every partition's
source slice (`nc_sa_fld_var[index.source] = data`, line 532) instead of
the per-partition subset `data[index.target]` its own docstring
describes, so a write spanning two partitions is a numpy broadcast
error: variable length 4, partition length 2, writing `[10, 20, 30, 40]`
over `[0, 4)` tries to put a length-4 array into a length-2 slab. -/
theorem C1_multi_partition_write_broadcast_error :
    s3Variable_setitem 4 2 0 [] 0 4 [10, 20, 30, 40] = .error .broadcast
  ∧ cfa_indexEntries 4 2 0 4 = [⟨0, 0, 2, 0, 2, 0, 2⟩, ⟨1, 2, 4, 0, 2, 2, 4⟩] :=
  ⟨rfl, by decide⟩

/-! ### Interval-write lemmas for the partition model -/

theorem writeRegion_length {α : Type} (arr src : List α) (a b : Nat)
    (hab : a ≤ b) (hb : b ≤ arr.length) (hsrc : src.length = b - a) :
    (writeRegion arr a b src).length = arr.length := by
  unfold writeRegion
  simp only [List.length_append, List.length_take, List.length_drop]
  omega

theorem writeRegion_take_of_le {α : Type} (arr src : List α) (a b k : Nat)
    (hk : k ≤ a) (ha : a ≤ arr.length) :
    (writeRegion arr a b src).take k = arr.take k := by
  unfold writeRegion
  rw [List.take_append_eq_append_take, List.take_take]
  have h1 : k - (arr.take a).length = 0 := by
    rw [List.length_take]; omega
  rw [h1, List.take_zero, List.append_nil, Nat.min_eq_left hk]

theorem readRegion_writeRegion_self {α : Type} (arr src : List α) (a b : Nat)
    (hab : a ≤ b) (hb : b ≤ arr.length) (hsrc : src.length = b - a) :
    readRegion (writeRegion arr a b src) a b = src := by
  unfold readRegion writeRegion
  have hta : (arr.take a).length = a := by rw [List.length_take]; omega
  rw [List.drop_append_eq_append_drop, List.drop_eq_nil_of_le (le_of_eq hta), hta,
    List.nil_append, Nat.sub_self, List.drop_zero, List.take_append_eq_append_take]
  have h2 : b - a - src.length = 0 := by omega
  rw [h2, List.take_zero, List.append_nil, List.take_of_length_le (le_of_eq hsrc)]

theorem readRegion_congr {α : Type} (X Y : List α) (a b : Nat)
    (h : X.take b = Y.take b) : readRegion X a b = readRegion Y a b := by
  unfold readRegion
  rw [← List.drop_take, ← List.drop_take, h]

theorem npAssign_exact (arr src : List Int) (a b : Nat) (h : src.length = b - a) :
    npAssign arr a b src = .ok (writeRegion arr a b src) := by
  unfold npAssign
  rw [if_pos h]

theorem npAssign_single (arr : List Int) (a b : Nat) (x : Int) :
    npAssign arr a b [x] = .ok (writeRegion arr a b (List.replicate (b - a) x)) := by
  unfold npAssign
  by_cases h : ([x] : List Int).length = b - a
  · rw [if_pos h]
    have h1 : b - a = 1 := by simpa using h.symm
    rw [h1]
    rfl
  · rw [if_neg h]

/-! ### Structure of the modelled index-entry list -/

theorem mem_cfa_entries {L t s e : Nat} {en : IndexEntry}
    (h : en ∈ cfa_indexEntries L t s e) :
    ∃ i, i < numParts L t ∧ max s (i * t) < min e (partStop L t i) ∧
      en = ⟨i, i * t, partStop L t i,
            max s (i * t) - i * t, min e (partStop L t i) - i * t,
            max s (i * t) - s, min e (partStop L t i) - s⟩ := by
  unfold cfa_indexEntries at h
  obtain ⟨i, hi, hf⟩ := List.mem_filterMap.mp h
  rw [List.mem_range] at hi
  dsimp only at hf
  by_cases hc : max s (i * t) < min e (partStop L t i)
  · rw [if_pos hc] at hf
    exact ⟨i, hi, hc, (Option.some.inj hf).symm⟩
  · rw [if_neg hc] at hf
    cases hf

theorem cfa_entries_sorted (L t s e : Nat) :
    (cfa_indexEntries L t s e).Pairwise (fun x y => x.tgt_stop ≤ y.tgt_start) := by
  unfold cfa_indexEntries
  rw [List.pairwise_filterMap]
  refine List.Pairwise.imp ?_ (List.pairwise_lt_range (numParts L t))
  intro i j hij x hx y hy
  rw [Option.mem_def] at hx hy
  dsimp only at hx hy
  by_cases hci : max s (i * t) < min e (partStop L t i)
  · rw [if_pos hci] at hx
    by_cases hcj : max s (j * t) < min e (partStop L t j)
    · rw [if_pos hcj] at hy
      cases hx
      cases hy
      dsimp only
      have h1 : partStop L t i ≤ i * t + t := by
        unfold partStop
        rw [show (i + 1) * t = i * t + t from Nat.succ_mul i t]
        exact min_le_left _ _
      have h2 : i * t + t ≤ j * t := by
        have h := Nat.mul_le_mul_right t hij
        rwa [Nat.succ_mul i t] at h
      have h3 : j * t ≤ max s (j * t) := le_max_right _ _
      have h4 : min e (partStop L t i) ≤ partStop L t i := min_le_right _ _
      generalize partStop L t i = P at *
      generalize i * t = q at *
      generalize j * t = r at *
      generalize max s r = osj at *
      generalize min e P = oei at *
      omega
    · rw [if_neg hcj] at hy
      cases hy
  · rw [if_neg hci] at hx
    cases hx

theorem cfa_entry_tgt_bounds {L t s e : Nat} {en : IndexEntry}
    (h : en ∈ cfa_indexEntries L t s e) :
    en.tgt_start ≤ en.tgt_stop ∧ en.tgt_stop ≤ e - s := by
  obtain ⟨i, _, hc, he⟩ := mem_cfa_entries h
  subst he
  dsimp only
  have h2 : s ≤ max s (i * t) := le_max_left _ _
  have h3 : min e (partStop L t i) ≤ e := min_le_left _ _
  generalize partStop L t i = P at *
  generalize i * t = q at *
  generalize max s q = os at *
  generalize min e P = oe at *
  omega

theorem entryContent_length {L t s e : Nat} (fill : Int) (store : SubStore) {en : IndexEntry}
    (hwf : ∀ i sub, storeLookup store i = some sub → sub.length = partStop L t i - i * t)
    (h : en ∈ cfa_indexEntries L t s e) :
    (entryContent fill store en).length = en.tgt_stop - en.tgt_start := by
  obtain ⟨i, _, hc, he⟩ := mem_cfa_entries h
  subst he
  unfold entryContent
  dsimp only
  cases hst : storeLookup store i with
  | none => simp
  | some sub =>
    have hlen := hwf i sub hst
    unfold readRegion
    simp only [List.length_take, List.length_drop, hlen]
    have h2 : s ≤ max s (i * t) := le_max_left _ _
    have h2b : i * t ≤ max s (i * t) := le_max_right _ _
    have h4 : min e (partStop L t i) ≤ partStop L t i := min_le_right _ _
    generalize partStop L t i = P at *
    generalize i * t = q at *
    generalize max s q = os at *
    generalize min e P = oe at *
    omega

/-- The `__getitem__` per-partition loop, processed in PartitionIndex
order over pairwise-disjoint, ascending target regions: it never raises,
preserves the buffer length and any prefix below all written regions,
and leaves each entry's content in its target region. -/
theorem getitem_foldlM_spec (fill : Int) (store : SubStore) :
    ∀ (es : List IndexEntry) (tgt : List Int),
    (∀ en ∈ es, en.tgt_start ≤ en.tgt_stop ∧ en.tgt_stop ≤ tgt.length) →
    (∀ en ∈ es, (entryContent fill store en).length = en.tgt_stop - en.tgt_start) →
    es.Pairwise (fun x y => x.tgt_stop ≤ y.tgt_start) →
    ∃ res,
      es.foldlM (fun tgt en =>
        match storeLookup store en.part_index with
        | none => npAssign tgt en.tgt_start en.tgt_stop [fill]
        | some sub =>
          npAssign tgt en.tgt_start en.tgt_stop
            (readRegion sub en.src_start en.src_stop)) tgt = .ok res
      ∧ res.length = tgt.length
      ∧ (∀ k, (∀ en ∈ es, k ≤ en.tgt_start) → res.take k = tgt.take k)
      ∧ ∀ en ∈ es, readRegion res en.tgt_start en.tgt_stop = entryContent fill store en := by
  intro es
  induction es with
  | nil =>
    intro tgt _ _ _
    exact ⟨tgt, rfl, rfl, fun _ _ => rfl, by simp⟩
  | cons en es ih =>
    intro tgt hb hlen hsorted
    have hb0 := hb en (List.mem_cons_self en es)
    have hlen0 := hlen en (List.mem_cons_self en es)
    have hstep : (match storeLookup store en.part_index with
        | none => npAssign tgt en.tgt_start en.tgt_stop [fill]
        | some sub =>
          npAssign tgt en.tgt_start en.tgt_stop
            (readRegion sub en.src_start en.src_stop)) =
        .ok (writeRegion tgt en.tgt_start en.tgt_stop (entryContent fill store en)) := by
      cases hst : storeLookup store en.part_index with
      | none =>
        have hec : entryContent fill store en =
            List.replicate (en.tgt_stop - en.tgt_start) fill := by
          unfold entryContent
          rw [hst]
        rw [hec]
        exact npAssign_single tgt en.tgt_start en.tgt_stop fill
      | some sub =>
        have hec : entryContent fill store en =
            readRegion sub en.src_start en.src_stop := by
          unfold entryContent
          rw [hst]
        rw [hec]
        rw [hec] at hlen0
        exact npAssign_exact _ _ _ _ hlen0
    have hlen1 : (writeRegion tgt en.tgt_start en.tgt_stop
        (entryContent fill store en)).length = tgt.length :=
      writeRegion_length _ _ _ _ hb0.1 hb0.2 hlen0
    have hpc := List.pairwise_cons.mp hsorted
    obtain ⟨res, hok, hrlen, hpre, hsl⟩ :=
      ih (writeRegion tgt en.tgt_start en.tgt_stop (entryContent fill store en))
        (by
          intro x hx
          rw [hlen1]
          exact hb x (List.mem_cons_of_mem _ hx))
        (fun x hx => hlen x (List.mem_cons_of_mem _ hx))
        hpc.2
    refine ⟨res, ?_, ?_, ?_, ?_⟩
    · rw [List.foldlM_cons, hstep]
      exact hok
    · rw [hrlen, hlen1]
    · intro k hk
      rw [hpre k (fun x hx => hk x (List.mem_cons_of_mem _ hx))]
      exact writeRegion_take_of_le _ _ _ _ _ (hk en (List.mem_cons_self _ _))
        (le_trans hb0.1 hb0.2)
    · intro x hx
      rcases List.mem_cons.mp hx with hx1 | hx2
      · subst hx1
        have hres_take : res.take x.tgt_stop = (writeRegion tgt x.tgt_start x.tgt_stop
            (entryContent fill store x)).take x.tgt_stop :=
          hpre x.tgt_stop (fun y hy => hpc.1 y hy)
        rw [readRegion_congr _ _ _ _ hres_take]
        exact readRegion_writeRegion_self _ _ _ _ hb0.1 hb0.2 hlen0
      · exact hsl x hx2

/-- C5: on a read slice `[s, e)` of a partitioned variable,
`__getitem__` raises no error; every overlapping partition whose
subarray file is absent on the backing store leaves its target region
filled with the variable's `_FillValue`, and every partition whose file
exists leaves its target region equal to the subarray slab at the
entry's source slice. -/
theorem C5_missing_subarray_fills (L t s e : Nat) (fill : Int) (store : SubStore)
    (hse : s ≤ e) (heL : e ≤ L)
    (hwf : ∀ i sub, storeLookup store i = some sub →
      sub.length = partStop L t i - i * t) :
    ∃ res, s3Variable_getitem L t fill store s e = .ok res
      ∧ res.length = e - s
      ∧ ∀ en ∈ cfa_indexEntries L t s e,
          readRegion res en.tgt_start en.tgt_stop =
            match storeLookup store en.part_index with
            | none => List.replicate (en.tgt_stop - en.tgt_start) fill
            | some sub => readRegion sub en.src_start en.src_stop := by
  obtain ⟨res, hok, hlen, _, hsl⟩ := getitem_foldlM_spec fill store
    (cfa_indexEntries L t s e) (List.replicate (e - s) 0)
    (by
      intro en hen
      have hbb := cfa_entry_tgt_bounds hen
      rw [List.length_replicate]
      exact hbb)
    (fun en hen => entryContent_length fill store hwf hen)
    (cfa_entries_sorted L t s e)
  refine ⟨res, hok, by rw [hlen, List.length_replicate], ?_⟩
  intro en hen
  have h := hsl en hen
  rw [h]
  unfold entryContent
  rfl

/-- C5 witness: variable of length 4, tile length 2, slice `[1, 3)`;
partition 0's subarray `[5, 6]` exists, partition 1's file is absent.
The read succeeds, returns a length-2 array whose first cell is copied
from the subarray and whose second cell is the fill value 9. -/
theorem C5_witness :
    ∃ res, s3Variable_getitem 4 2 9 [(0, [5, 6])] 1 3 = .ok res
      ∧ res.length = 3 - 1
      ∧ ∀ en ∈ cfa_indexEntries 4 2 1 3,
          readRegion res en.tgt_start en.tgt_stop =
            match storeLookup [(0, [5, 6])] en.part_index with
            | none => List.replicate (en.tgt_stop - en.tgt_start) 9
            | some sub => readRegion sub en.src_start en.src_stop :=
  C5_missing_subarray_fills 4 2 1 3 9 [(0, [5, 6])] (by decide) (by decide)
    (by
      intro i sub h
      unfold storeLookup at h
      by_cases hi : i = 0
      · subst hi
        rw [show List.lookup 0 [(0, ([5, 6] : List Int))] = some [5, 6] from rfl] at h
        cases h
        decide
      · have hn : List.lookup i [(0, ([5, 6] : List Int))] = none := by
          show (match i == 0 with
            | true => some ([5, 6] : List Int)
            | false => List.lookup i ([] : List (Nat × List Int))) = none
          rw [show (i == 0) = false from by rw [beq_eq_false_iff_ne]; exact hi]
          rfl
        rw [hn] at h
        cases h)
